import Mathlib

/-!
Shallow embedding of the HeartSense cardiac-monitoring simulator core
(src/constants.ts and src/useCardiacDataSimulator.ts) and proofs about it.

Modelling conventions:
- JavaScript numbers are modelled as exact rationals; decimal literals in the
  source (0.1, 1.5, ...) become the exact rational of the same decimal.
- The JS value Infinity, used for the inter-beat countdown of asystole and
  for the respiration cycle at respiratory rate 0, is modelled with Option
  (none stands for Infinity); see rrLE0, rrDec and respAdvance.
- Randomized draws (Math.random based generateRandomInRange, the per-rhythm
  simulatedHR generators, crypto.randomUUID) are modelled as explicit input
  parameters of the functions that consume them: a tick takes the intrinsic
  heart-rate draw and the fresh alert ids as arguments.
- Math.sin and Math.PI are floating-point transcendentals with no exact
  embedding; they are passed as abstract parameters (sinq, piq). No claim
  below depends on their values.
- The JS Map of simulation states is modelled as an association list
  (List (String × SimData)) with JS Map semantics: set replaces in place,
  iteration is in insertion order.
-/

/-! ## Data model (src/unnamed/part_003: types) -/

inductive AlertSeverity where
  | warning
  | critical
  deriving DecidableEq, Repr

structure Alert where
  id : String
  message : String
  severity : AlertSeverity
  timestamp : Int
  metric : String
  deriving DecidableEq, Repr

structure BloodPressure where
  systolic : Rat
  diastolic : Rat
  deriving DecidableEq, Repr

structure CardiacMetrics where
  heartRate : Rat
  bloodPressure : BloodPressure
  spo2 : Rat
  temperature : Rat
  respiratoryRate : Rat
  deriving DecidableEq, Repr

structure ECGDataPoint where
  time : Nat
  value : Rat
  deriving DecidableEq, Repr

structure TrendDataPoint where
  time : String
  value : Rat
  deriving DecidableEq, Repr

inductive PacerMode where
  | off
  | demand
  deriving DecidableEq, Repr

structure PacerSettings where
  mode : PacerMode
  rate : Rat
  deriving DecidableEq, Repr

inductive CardiacRhythm where
  | NSR
  | VT
  | SINUS_TACHYCARDIA
  | SINUS_BRADYCARDIA
  | VENTRICULAR_FIBRILLATION
  | TORSADES_DE_POINTES
  | FIRST_DEGREE_AV_BLOCK
  | SECOND_DEGREE_AV_BLOCK_TYPE_I
  | SECOND_DEGREE_AV_BLOCK_TYPE_II
  | THIRD_DEGREE_AV_BLOCK
  | ATRIAL_FIBRILLATION
  | ATRIAL_FLUTTER
  | SVT
  | ASYSTOLE
  deriving DecidableEq, Repr

structure MetricThresholds where
  lowWarning : Option Rat := none
  lowCritical : Option Rat := none
  highWarning : Option Rat := none
  highCritical : Option Rat := none
  deriving DecidableEq, Repr

structure PersonalizedAlertThresholds where
  heartRate : Option MetricThresholds := none
  bloodPressureSystolic : Option MetricThresholds := none
  bloodPressureDiastolic : Option MetricThresholds := none
  spo2 : Option MetricThresholds := none
  temperature : Option MetricThresholds := none
  respiratoryRate : Option MetricThresholds := none
  deriving DecidableEq, Repr

structure Patient where
  id : String
  name : String
  age : Nat
  gender : String
  room : String
  notes : Option String := none
  diagnosis : Option String := none
  personalizedThresholds : Option PersonalizedAlertThresholds := none
  activeRhythm : CardiacRhythm
  pacerSettings : Option PacerSettings := none
  noiseSignatures : List String := []
  codeStatus : Option String := none
  source : Option String := none
  deriving DecidableEq, Repr

structure LoggedVitalSign where
  timestamp : Int
  metrics : CardiacMetrics
  deriving DecidableEq, Repr

inductive HeartSenseAIRiskLevel where
  | stable
  | low
  | moderate
  | high
  | critical
  | pending
  | insufficientData
  | errorAnalyzing
  deriving DecidableEq, Repr

structure HeartSenseAIOutput where
  riskScore : Rat
  riskLevel : HeartSenseAIRiskLevel
  predictionReasoning : String
  confidenceScore : Option Rat := none
  deriving DecidableEq, Repr

structure HeartSenseAIState extends HeartSenseAIOutput where
  lastAnalyzedTimestamp : Int
  isLoading : Bool
  error : Option String := none
  deriving DecidableEq, Repr

/-- Feedback is explicitly a true or false positive (the source type excludes
the not_reviewed label via Omit). -/
inductive AlarmFeedbackType where
  | truePositive
  | falsePositive
  deriving DecidableEq, Repr

structure AlertSnapshot where
  message : String
  severity : AlertSeverity
  metric : String
  originalTimestamp : Int
  deriving DecidableEq, Repr

structure AlarmFeedbackEntry where
  id : String
  patientId : String
  alertSnapshot : AlertSnapshot
  feedback : AlarmFeedbackType
  feedbackTimestamp : Int
  deriving DecidableEq, Repr

/-- PatientSpecificSimData from the source. acknowledgedAlertIds is a JS Set,
modelled as a duplicate-free insertion-ordered list of ids. Timestamp-valued
fields that the source types as optional are always initialized by
createInitialPatientSimData, so they are plain Int here (the source reads
them through a fallback to 0 which is the identity on numbers). -/
structure SimData where
  metrics : CardiacMetrics
  ecgData : List ECGDataPoint
  spo2WaveData : List ECGDataPoint
  respWaveData : List ECGDataPoint
  heartRateTrend : List TrendDataPoint
  alerts : List Alert
  ecgPatternBuffer : List Rat
  ecgBufferIndex : Nat
  ecgCurrentTime : Nat
  wenckebachCycleBeat : Nat
  currentPRPoints : Nat
  mobitzBeatInCycle : Nat
  lastPWaveTime : Int
  lastQRSWaveTime : Int
  /-- JS number that can be Infinity: none stands for Infinity. -/
  nextRRIntervalPoints : Option Rat
  pWaveCyclePosition : Rat
  acknowledgedAlertIds : List String
  loggedVitals : List LoggedVitalSign
  timeSinceLastCardiacEventMs : Rat
  lastBeatTimestamp : Int
  heartSenseAIState : HeartSenseAIState
  alarmFeedbackLog : List AlarmFeedbackEntry
  currentTargetHeartRate : Rat
  lastBPUpdate : Int
  lastTempUpdate : Int
  lastRRUpdate : Int
  lastSpo2UpdateAttempt : Int
  nonNsrRhythmStartTime : Option Int
  isLeadOff : Bool
  spo2PulsePatternBuffer : List Rat
  spo2PulseBufferIndex : Nat
  spo2NextPulseDue : Bool
  respirationCyclePosition : Rat
  deriving DecidableEq, Repr

/-! ## Constants (src/constants.ts) -/

def SIMULATION_VITALS_INTERVAL_MS : Int := 1000

def SIMULATION_ECG_INTERVAL_MS : Rat := 25

def BP_UPDATE_INTERVAL_MS : Int := 5 * 60 * 1000

def TEMP_UPDATE_INTERVAL_MS : Int := 10 * 60 * 1000

def RR_UPDATE_INTERVAL_MS : Int := 2 * 60 * 1000

def AUTO_LOG_VITALS_INTERVAL_SECONDS : Int := 60

def ECG_TIME_WINDOW_SECONDS : Rat := 10

/-- Math.ceil(10 * (1000 / 25)) = 400. -/
def MAX_ECG_DATA_POINTS : Nat :=
  (Int.toNat ⌈ECG_TIME_WINDOW_SECONDS * (1000 / SIMULATION_ECG_INTERVAL_MS)⌉)

def ECG_BASE_PATTERN : List Rat :=
  [0, 0, 0.1, 0.2, 0.1, 0, -0.1, 0.5, 1.5, -0.8, 0.2, 0, 0.1, 0.2, 0.3, 0.2, 0.1, 0, 0, 0]

def ECG_VT_PATTERN : List Rat :=
  [0.5, 1.0, 0.5, 0, -0.5, -1.0, -0.5, 0, 0.6, 1.1, 0.6, 0, -0.6, -1.1, -0.6, 0]

def ECG_SINUS_TACHY_PATTERN : List Rat := ECG_BASE_PATTERN

def ECG_SINUS_BRADY_PATTERN : List Rat := ECG_BASE_PATTERN

def ECG_VF_PATTERN : List Rat :=
  [0.3, -0.2, 0.5, -0.4, 0.2, -0.1, 0.4, -0.3, 0.1, 0, 0.2, -0.2, 0.3, -0.1, 0.1, -0.3]

def ECG_TDP_PATTERN : List Rat :=
  [0.5, 1, -0.5, -1.2, 0.3, 0.8, -0.2, -0.9, 0.1, 0.5, -0.1, -0.5, 0.6, 1.1, -0.6, -1.3]

def ECG_FIRST_DEGREE_AV_BLOCK_PATTERN : List Rat := ECG_BASE_PATTERN

def ECG_SECOND_DEGREE_AV_BLOCK_TYPE_I_PATTERN : List Rat := ECG_BASE_PATTERN

def ECG_SECOND_DEGREE_AV_BLOCK_TYPE_II_PATTERN : List Rat := ECG_BASE_PATTERN

def ECG_THIRD_DEGREE_AV_BLOCK_PATTERN : List Rat := [-0.1, 0.5, 1.5, -0.8, 0.2, 0]

def ECG_P_WAVE_PATTERN : List Rat := [0, 0, 0.1, 0.2, 0.1, 0, 0, 0]

def ECG_ASYSTOLE_PATTERN : List Rat := [0, 0, 0, 0, 0, 0, 0, 0, 0, 0]

def ECG_AFIB_QRS_PATTERN : List Rat := [0, -0.1, 0.5, 1.5, -0.8, 0.2, 0, 0.1, 0.2, 0.1, 0]

def ECG_AFIB_FIBRILLATORY_WAVE : List Rat :=
  [0, 0.05, -0.05, 0.03, -0.03, 0.06, -0.04, 0.02, -0.02]

def ECG_AFLUTTER_PATTERN : List Rat :=
  [0.0, 0.2, 0.4, 0.2, 0.0, -0.2, -0.4, -0.2,
   0.0, 0.2, 0.4, 0.2, 0.0, -0.2, -0.4, -0.2,
   0.0, 0.1, 0.8, 1.5, -0.6, 0.1, 0.0,
   0.0, 0.0, 0.0, 0.0]

def ECG_SVT_PATTERN : List Rat := [0, 0, 0.5, 1.5, -0.8, 0.2, 0, 0.1, 0.1, 0, 0]

def ECG_PACER_SPIKE_PATTERN : List Rat := [0, 2.8, 0]

def ECG_PACED_QRS_PATTERN : List Rat := [0, 0.2, 0.6, 1.0, 0.4, -0.3, -0.5, -0.2, 0]

def ECG_SPO2_BASELINE_VALUE : Rat := 0.2

def ECG_SPO2_PULSE_PATTERN : List Rat := [0.0, 0.4, 0.8, 1.0, 0.7, 0.5, 0.3, 0.15, 0.0]

def SPO2_PULSE_POINTS_DURATION : Rat := 18

def RESP_AMPLITUDE : Rat := 1.0

/-- RhythmParameter from src/constants.ts. The randomized simulatedHR
generator has no pure embedding; every consumer below takes the draw it
would produce as an explicit argument (intrinsicHR, initialHR, newHR). -/
structure RhythmParameter where
  displayName : String
  basePattern : List Rat
  prPoints : Option Nat := none
  wenckebachCycleLength : Option Nat := none
  blockConductionPair : Option (Nat × Nat) := none
  atrialRate : Option Rat := none
  isLethal : Bool := false
  ecgLineColor : Option String := none
  isIrregular : Bool := false
  flutterWavePattern : Option (List Rat) := none
  qrsPattern : Option (List Rat) := none
  generatesQRS : Bool
  deriving DecidableEq, Repr

def RHYTHM_PARAMS : CardiacRhythm → RhythmParameter
  | .NSR =>
    { displayName := "Normal Sinus Rhythm", basePattern := ECG_BASE_PATTERN,
      ecgLineColor := some "#34d399", generatesQRS := true }
  | .VT =>
    { displayName := "Ventricular Tachycardia", basePattern := ECG_VT_PATTERN,
      isLethal := true, ecgLineColor := some "#ef4444", generatesQRS := true }
  | .SINUS_TACHYCARDIA =>
    { displayName := "Sinus Tachycardia", basePattern := ECG_SINUS_TACHY_PATTERN,
      ecgLineColor := some "#34d399", generatesQRS := true }
  | .SINUS_BRADYCARDIA =>
    { displayName := "Sinus Bradycardia", basePattern := ECG_SINUS_BRADY_PATTERN,
      ecgLineColor := some "#34d399", generatesQRS := true }
  | .VENTRICULAR_FIBRILLATION =>
    { displayName := "Ventricular Fibrillation", basePattern := ECG_VF_PATTERN,
      isLethal := true, ecgLineColor := some "#ef4444", generatesQRS := false }
  | .TORSADES_DE_POINTES =>
    { displayName := "Torsades de Pointes", basePattern := ECG_TDP_PATTERN,
      isLethal := true, ecgLineColor := some "#ef4444", generatesQRS := true }
  | .FIRST_DEGREE_AV_BLOCK =>
    { displayName := "1st Degree AV Block", basePattern := ECG_FIRST_DEGREE_AV_BLOCK_PATTERN,
      prPoints := some 5, ecgLineColor := some "#34d399", generatesQRS := true }
  | .SECOND_DEGREE_AV_BLOCK_TYPE_I =>
    { displayName := "2nd Deg AV Block Type I",
      basePattern := ECG_SECOND_DEGREE_AV_BLOCK_TYPE_I_PATTERN,
      wenckebachCycleLength := some 5, ecgLineColor := some "#fbbf24", generatesQRS := true }
  | .SECOND_DEGREE_AV_BLOCK_TYPE_II =>
    { displayName := "2nd Deg AV Block Type II",
      basePattern := ECG_SECOND_DEGREE_AV_BLOCK_TYPE_II_PATTERN,
      blockConductionPair := some (3, 1), ecgLineColor := some "#f97316", generatesQRS := true }
  | .THIRD_DEGREE_AV_BLOCK =>
    { displayName := "3rd Degree AV Block", basePattern := ECG_THIRD_DEGREE_AV_BLOCK_PATTERN,
      atrialRate := some 70, ecgLineColor := some "#f97316", generatesQRS := true }
  | .ATRIAL_FIBRILLATION =>
    { displayName := "Atrial Fibrillation", basePattern := ECG_AFIB_FIBRILLATORY_WAVE,
      qrsPattern := some ECG_AFIB_QRS_PATTERN, isIrregular := true,
      ecgLineColor := some "#fbbf24", generatesQRS := true }
  | .ATRIAL_FLUTTER =>
    { displayName := "Atrial Flutter", basePattern := ECG_AFLUTTER_PATTERN,
      ecgLineColor := some "#f97316", generatesQRS := true }
  | .SVT =>
    { displayName := "Supraventricular Tachycardia", basePattern := ECG_SVT_PATTERN,
      ecgLineColor := some "#fbbf24", generatesQRS := true }
  | .ASYSTOLE =>
    { displayName := "Asystole", basePattern := ECG_ASYSTOLE_PATTERN,
      isLethal := true, ecgLineColor := some "#9ca3af", generatesQRS := false }

/-- Global alert thresholds for one metric. Fields are optional because the
SPO2 entry of ALERT_THRESHOLDS defines no high thresholds (reading an absent
JS property yields undefined, modelled by none). -/
structure GlobalThresholds where
  LOW_CRITICAL : Option Rat := none
  LOW_WARNING : Option Rat := none
  HIGH_WARNING : Option Rat := none
  HIGH_CRITICAL : Option Rat := none
  deriving DecidableEq, Repr

def ALERT_THRESHOLDS_HEART_RATE : GlobalThresholds :=
  { LOW_CRITICAL := some 40, LOW_WARNING := some 50,
    HIGH_WARNING := some 110, HIGH_CRITICAL := some 130 }

def ALERT_THRESHOLDS_SPO2 : GlobalThresholds :=
  { LOW_CRITICAL := some 88, LOW_WARNING := some 92 }

def HEARTSENSE_AI_ANALYSIS_INTERVAL_MS : Int := 10 * 60 * 1000

def HEARTSENSE_LOGGED_VITALS_COUNT : Nat := 20

def INITIAL_HEARTSENSE_AI_STATE : HeartSenseAIState :=
  { riskScore := 0, riskLevel := .pending,
    predictionReasoning := "Awaiting initial analysis.",
    confidenceScore := some 0, lastAnalyzedTimestamp := 0,
    isLoading := false, error := none }

/-- getDefaultMetrics(hr?). The source computes heartRate as
hr || RHYTHM_PARAMS.NSR.simulatedHR() (JS: a 0 or absent hr falls back to a
fresh NSR draw) and respiratoryRate as generateRandomInRange(12, 18); both
draws are explicit arguments here. -/
def getDefaultMetrics (hr nsrFallbackHR rrDraw : Rat) : CardiacMetrics :=
  { heartRate := if hr = 0 then nsrFallbackHR else hr
    bloodPressure := { systolic := 120, diastolic := 80 }
    spo2 := 98
    temperature := 37.0
    respiratoryRate := rrDraw }

def getInitialEcgData : List ECGDataPoint :=
  (List.range MAX_ECG_DATA_POINTS).map (fun i => { time := i, value := 0 })

def getInitialSpo2Data : List ECGDataPoint :=
  (List.range MAX_ECG_DATA_POINTS).map (fun i => { time := i, value := ECG_SPO2_BASELINE_VALUE })

def getInitialRespData : List ECGDataPoint :=
  (List.range MAX_ECG_DATA_POINTS).map (fun i => { time := i, value := 0 })

/-! ## The simulation-state map (JS Map keyed by patient id) -/

abbrev SimMap := List (String × SimData)

def mapLookup (m : List (String × SimData)) (k : String) : Option SimData :=
  (m.find? (fun e => e.1 = k)).map (fun e => e.2)

/-- JS Map.set: replace the entry in place if the key is present, else append. -/
def mapSet (m : List (String × SimData)) (k : String) (v : SimData) :
    List (String × SimData) :=
  if m.any (fun e => e.1 = k) then
    m.map (fun e => if e.1 = k then (k, v) else e)
  else m ++ [(k, v)]

/-- JS Map.delete. -/
def mapDelete (m : List (String × SimData)) (k : String) : List (String × SimData) :=
  m.filter (fun e => ¬ e.1 = k)

/-- JS Set.add on the acknowledged-ids set. -/
def setAdd (s : List String) (x : String) : List String :=
  if x ∈ s then s else s ++ [x]

/-! ## createInitialPatientSimData (src/useCardiacDataSimulator.ts:60) -/

/-- createInitialPatientSimData. initialHR models the
rhythmParams.simulatedHR() draw, nsrFallbackHR and rrDraw the draws inside
getDefaultMetrics, and now models Date.now(). -/
def createInitialPatientSimData (initialHR nsrFallbackHR rrDraw : Rat) (now : Int)
    (patient : Patient) : SimData :=
  { metrics := getDefaultMetrics initialHR nsrFallbackHR rrDraw
    ecgData := getInitialEcgData
    spo2WaveData := getInitialSpo2Data
    respWaveData := getInitialRespData
    heartRateTrend := []
    alerts := []
    ecgPatternBuffer := []
    ecgBufferIndex := 0
    ecgCurrentTime := 0
    wenckebachCycleBeat := 0
    currentPRPoints := 0
    mobitzBeatInCycle := 0
    lastPWaveTime := 0
    lastQRSWaveTime := 0
    nextRRIntervalPoints := some 0
    pWaveCyclePosition := 0
    acknowledgedAlertIds := []
    loggedVitals := []
    timeSinceLastCardiacEventMs := 0
    lastBeatTimestamp := 0
    heartSenseAIState := INITIAL_HEARTSENSE_AI_STATE
    alarmFeedbackLog := []
    currentTargetHeartRate := initialHR
    lastBPUpdate := 0
    lastTempUpdate := 0
    lastRRUpdate := 0
    lastSpo2UpdateAttempt := 0
    nonNsrRhythmStartTime := if patient.activeRhythm = .NSR then none else some now
    isLeadOff := false
    spo2PulsePatternBuffer := []
    spo2PulseBufferIndex := 0
    spo2NextPulseDue := false
    respirationCyclePosition := 0 }

/-! ## High-frequency ECG tick (src/useCardiacDataSimulator.ts:299) -/

def pointsPerSecond : Rat := 1000 / SIMULATION_ECG_INTERVAL_MS

/-- JS remainder a % b for a nonnegative dividend and positive divisor. -/
def jsMod (a b : Rat) : Rat := a - b * (⌊a / b⌋ : Int)

/-- Math.abs on finite numbers. -/
def jsAbs (a : Rat) : Rat := if a < 0 then -a else a

/-- Math.min on finite numbers. -/
def jsMin (a b : Rat) : Rat := if a ≤ b then a else b

/-- Math.max on finite numbers. -/
def jsMax (a b : Rat) : Rat := if a ≤ b then b else a

/-- The countdown test nextRRIntervalPoints <= 0; Infinity (none) compares
false. -/
def rrLE0 : Option Rat → Bool
  | none => false
  | some q => decide (q ≤ 0)

/-- The postfix decrement nextRRIntervalPoints--; Infinity - 1 = Infinity. -/
def rrDec : Option Rat → Option Rat
  | none => none
  | some q => some (q - 1)

structure RespStep where
  pos : Rat
  value : Rat
  deriving DecidableEq, Repr

/-- Respiration advance, shared verbatim by the lead-off and normal branches:
respCycleSeconds is Infinity when the rate is 0, in which case
(pos + 1) % Infinity = pos + 1 and newPos / Infinity = 0. -/
def respAdvance (sinq : Rat → Rat) (piq : Rat) (respiratoryRate pos : Rat) : RespStep :=
  let respRateHz := respiratoryRate / 60
  if respRateHz > 0 then
    let respCyclePoints := (1 / respRateHz) * pointsPerSecond
    let newPos := jsMod (pos + 1) respCyclePoints
    { pos := newPos, value := sinq ((newPos / respCyclePoints) * 2 * piq) * RESP_AMPLITUDE }
  else
    { pos := pos + 1, value := sinq 0 * RESP_AMPLITUDE }

structure Spo2Step where
  value : Rat
  buffer : List Rat
  index : Nat
  nextPulseDue : Bool
  deriving DecidableEq, Repr

/-- Walk of the SpO2 pulse pattern buffer, shared verbatim by the lead-off
and normal branches. -/
def spo2Advance (sinq : Rat → Rat) (piq : Rat) (spo2 : Rat) (buffer : List Rat)
    (index : Nat) (nextPulseDue : Bool) : Spo2Step :=
  if h : index < buffer.length then
    let pulseProgress := (index : Rat) / SPO2_PULSE_POINTS_DURATION
    let amplitude := sinq (pulseProgress * piq) * (spo2 / 100)
    { value := ECG_SPO2_BASELINE_VALUE + buffer.get ⟨index, h⟩ * 0.5 * jsMax 0.5 amplitude
      buffer := buffer, index := index + 1, nextPulseDue := nextPulseDue }
  else
    { value := ECG_SPO2_BASELINE_VALUE, buffer := [], index := 0, nextPulseDue := false }

/-- One high-frequency tick for one patient (the body of the ECG setInterval
loop, lines 308 to 411 of src/useCardiacDataSimulator.ts). sinq and piq model
Math.sin and Math.PI, now models Date.now(), and intrinsicHR models the
rhythmParams.simulatedHR() draw that tick. The sequential mutations of the
source are translated one conditional assignment per variable; the
third-degree AV block branch assigns the P-wave pattern to the buffer at line
370 but line 377 unconditionally overwrites it with currentPattern, so of
that branch only the lastPWaveTime update is observable and appears here. -/
def ecgTick (sinq : Rat → Rat) (piq : Rat) (now : Int) (intrinsicHR : Rat)
    (patient : Patient) (s : SimData) : SimData :=
  if s.isLeadOff then
    let metrics := { s.metrics with heartRate := 0 }
    let ecgData := s.ecgData.drop 1 ++ [{ time := s.ecgCurrentTime, value := 0 }]
    let resp := respAdvance sinq piq metrics.respiratoryRate s.respirationCyclePosition
    let respWaveData := s.respWaveData.drop 1 ++ [{ time := s.ecgCurrentTime, value := resp.value }]
    let spo2 := spo2Advance sinq piq metrics.spo2 s.spo2PulsePatternBuffer
      s.spo2PulseBufferIndex s.spo2NextPulseDue
    let spo2WaveData := s.spo2WaveData.drop 1 ++ [{ time := s.ecgCurrentTime, value := spo2.value }]
    { s with metrics := metrics, ecgData := ecgData,
             respirationCyclePosition := resp.pos, respWaveData := respWaveData,
             spo2PulsePatternBuffer := spo2.buffer, spo2PulseBufferIndex := spo2.index,
             spo2NextPulseDue := spo2.nextPulseDue, spo2WaveData := spo2WaveData,
             ecgCurrentTime := s.ecgCurrentTime + 1 }
  else
    let rhythmParams := RHYTHM_PARAMS patient.activeRhythm
    let pacerSettings := patient.pacerSettings.getD { mode := .off, rate := 70 }
    let pacerOn : Bool := decide (pacerSettings.mode ≠ .off)
    let heartRate := s.metrics.heartRate
    let nextBeatDue := rrLE0 s.nextRRIntervalPoints
    let isPacedBeat := nextBeatDue && (pacerOn && decide (heartRate < pacerSettings.rate))
    let currentTargetHeartRate :=
      if nextBeatDue then
        (if pacerOn && decide (heartRate < pacerSettings.rate) then pacerSettings.rate
         else intrinsicHR)
      else s.currentTargetHeartRate
    let nextRRIntervalPoints :=
      rrDec (if nextBeatDue then
               (if currentTargetHeartRate > 0 then
                  some ((60 / currentTargetHeartRate) * pointsPerSecond)
                else none)
             else s.nextRRIntervalPoints)
    let patternIndex := s.ecgBufferIndex
    let beatFired := decide (patternIndex = 0) && nextBeatDue
    let thirdDegreePWaveDue := beatFired &&
      (decide (patient.activeRhythm = .THIRD_DEGREE_AV_BLOCK) &&
       decide ((now : Rat) - (s.lastPWaveTime : Rat) > 60000 / (rhythmParams.atrialRate.getD 0)))
    let lastPWaveTime := if thirdDegreePWaveDue then now else s.lastPWaveTime
    let currentPattern :=
      if patternIndex > 0 then s.ecgPatternBuffer
      else if nextBeatDue then
        (if isPacedBeat then ECG_PACER_SPIKE_PATTERN ++ ECG_PACED_QRS_PATTERN
         else rhythmParams.basePattern)
      else []
    let ecgPatternBuffer := if beatFired then currentPattern else s.ecgPatternBuffer
    let lastBeatTimestamp := if beatFired then now else s.lastBeatTimestamp
    let spo2NextPulseDue :=
      if beatFired then rhythmParams.generatesQRS || isPacedBeat else s.spo2NextPulseDue
    let newValue := (currentPattern.get? patternIndex).getD 0
    let ecgData := s.ecgData.drop 1 ++ [{ time := s.ecgCurrentTime, value := newValue }]
    let ecgCurrentTime := s.ecgCurrentTime + 1
    let ecgBufferIndex := if patternIndex ≥ currentPattern.length - 1 then 0 else patternIndex + 1
    let ecgPatternBuffer2 := if ecgBufferIndex = 0 then [] else ecgPatternBuffer
    let spo2Buffer0 :=
      if spo2NextPulseDue && decide (s.spo2PulseBufferIndex = 0) then ECG_SPO2_PULSE_PATTERN
      else s.spo2PulsePatternBuffer
    let spo2 := spo2Advance sinq piq s.metrics.spo2 spo2Buffer0 s.spo2PulseBufferIndex
      spo2NextPulseDue
    let spo2WaveData := s.spo2WaveData.drop 1 ++ [{ time := ecgCurrentTime, value := spo2.value }]
    let resp := respAdvance sinq piq s.metrics.respiratoryRate s.respirationCyclePosition
    let respWaveData := s.respWaveData.drop 1 ++ [{ time := ecgCurrentTime, value := resp.value }]
    { s with currentTargetHeartRate := currentTargetHeartRate,
             nextRRIntervalPoints := nextRRIntervalPoints,
             lastPWaveTime := lastPWaveTime,
             ecgPatternBuffer := ecgPatternBuffer2,
             lastBeatTimestamp := lastBeatTimestamp,
             spo2NextPulseDue := spo2.nextPulseDue,
             ecgData := ecgData, ecgCurrentTime := ecgCurrentTime,
             ecgBufferIndex := ecgBufferIndex,
             spo2PulsePatternBuffer := spo2.buffer, spo2PulseBufferIndex := spo2.index,
             spo2WaveData := spo2WaveData,
             respirationCyclePosition := resp.pos, respWaveData := respWaveData }

/-- The whole high-frequency loop body over the map: a patient id with no
matching registry entry is skipped, so its entry is absent from the new map.
intrinsicHROf gives the per-patient simulatedHR draw. -/
def ecgLoop (sinq : Rat → Rat) (piq : Rat) (now : Int) (intrinsicHROf : String → Rat)
    (patients : List Patient) (m : SimMap) : SimMap :=
  m.foldl
    (fun acc e =>
      match patients.find? (fun p => p.id = e.1) with
      | none => acc
      | some p => mapSet acc e.1 (ecgTick sinq piq now (intrinsicHROf e.1) p e.2))
    []

/-! ## Alert engine: checkAlert (src/useCardiacDataSimulator.ts:463) -/

inductive AlertDirection where
  | low
  | high
  deriving DecidableEq, Repr

/-- JS nullish coalescing a ?? b on possibly-undefined numbers. -/
def jsCoalesce (a b : Option Rat) : Option Rat :=
  match a with
  | some x => some x
  | none => b

def personalizedFor (pt : Option MetricThresholds) (severity : AlertSeverity)
    (dir : AlertDirection) : Option Rat :=
  match dir, severity with
  | .low, .warning => pt.bind MetricThresholds.lowWarning
  | .low, .critical => pt.bind MetricThresholds.lowCritical
  | .high, .warning => pt.bind MetricThresholds.highWarning
  | .high, .critical => pt.bind MetricThresholds.highCritical

def globalFor (gt : GlobalThresholds) (severity : AlertSeverity)
    (dir : AlertDirection) : Option Rat :=
  match dir, severity with
  | .low, .warning => gt.LOW_WARNING
  | .low, .critical => gt.LOW_CRITICAL
  | .high, .warning => gt.HIGH_WARNING
  | .high, .critical => gt.HIGH_CRITICAL

/-- The threshold used by checkAlert: personalized override for the severity
and direction if present, else the global default (itself possibly absent). -/
def alertThreshold (gt : GlobalThresholds) (pt : Option MetricThresholds)
    (severity : AlertSeverity) (dir : AlertDirection) : Option Rat :=
  jsCoalesce (personalizedFor pt severity dir) (globalFor gt severity dir)

/-- isTriggered: value < threshold for low, value > threshold for high;
a comparison against undefined is false in JS. -/
def alertTriggered (value : Rat) (threshold : Option Rat) (dir : AlertDirection) : Bool :=
  match threshold with
  | none => false
  | some t =>
    match dir with
    | .low => decide (value < t)
    | .high => decide (value > t)

/-- The alert message template of checkAlert. -/
def mkAlertMessage (metric : String) (dir : AlertDirection) (value : Rat) : String :=
  metric ++ (match dir with | .low => " Low: " | .high => " High: ") ++ toString value

/-- checkAlert. freshId models the generateUniqueId() draw and now the alert
creation timestamp. The new alert is appended only when triggered and no
existing alert has the identical message and severity. -/
def checkAlert (freshId : String) (now : Int) (metric : String) (value : Rat)
    (gt : GlobalThresholds) (pt : Option MetricThresholds) (severity : AlertSeverity)
    (dir : AlertDirection) (newAlerts : List Alert) : List Alert :=
  let threshold := alertThreshold gt pt severity dir
  if alertTriggered value threshold dir then
    let message := mkAlertMessage metric dir value
    if newAlerts.any (fun a => a.message = message ∧ a.severity = severity) then newAlerts
    else
      newAlerts ++ [{ id := freshId, message := message, severity := severity,
                      timestamp := now, metric := metric }]
  else newAlerts

/-! ## Low-frequency vitals tick (src/useCardiacDataSimulator.ts:419) -/

/-- Math.sign. -/
def qsign (q : Rat) : Rat := if q > 0 then 1 else if q < 0 then -1 else 0

/-- The random draws and fresh ids that one low-frequency tick of one patient
consumes: the bounded random perturbations of blood pressure, temperature and
respiratory rate, and one generateUniqueId() draw per checkAlert call site. -/
structure VitalsRand where
  bpSysDelta : Rat
  bpDiaDelta : Rat
  tempDelta : Rat
  rrDelta : Rat
  alertIds : Nat → String

/-- One low-frequency tick for one patient (the body of the vitals
setInterval loop, lines 430 to 497). The asynchronous launch of
runHeartSenseAIAnalysis at line 493 mutates the map only through its own
completion callbacks, modelled separately by applyAIAnalysisSuccess and
applyAIAnalysisError; the value returned for this patient here is unaffected
by it, as in the source. -/
def vitalsBody (rand : VitalsRand) (now : Int) (patient : Patient) (s : SimData) : SimData :=
  let rhythmParams := RHYTHM_PARAMS patient.activeRhythm
  let m0 := s.metrics
  let hrDiff := s.currentTargetHeartRate - m0.heartRate
  let m1 := { m0 with heartRate := m0.heartRate + qsign hrDiff * jsMin (jsAbs hrDiff) 2 }
  let bpDue := decide (now - s.lastBPUpdate > BP_UPDATE_INTERVAL_MS)
  let m2 := if bpDue then
      { m1 with bloodPressure :=
          { systolic := m1.bloodPressure.systolic + rand.bpSysDelta
            diastolic := m1.bloodPressure.diastolic + rand.bpDiaDelta } }
    else m1
  let lastBPUpdate := if bpDue then now else s.lastBPUpdate
  let tempDue := decide (now - s.lastTempUpdate > TEMP_UPDATE_INTERVAL_MS)
  let m3 := if tempDue then { m2 with temperature := m2.temperature + rand.tempDelta } else m2
  let lastTempUpdate := if tempDue then now else s.lastTempUpdate
  let rrDue := decide (now - s.lastRRUpdate > RR_UPDATE_INTERVAL_MS)
  let m4 := if rrDue then
      { m3 with respiratoryRate := jsMax 8 (jsMin 35 (m3.respiratoryRate + rand.rrDelta)) }
    else m3
  let lastRRUpdate := if rrDue then now else s.lastRRUpdate
  let m5 := if rhythmParams.isLethal then
      { m4 with bloodPressure := { systolic := 0, diastolic := 0 }, spo2 := 0,
                respiratoryRate := 0 }
    else m4
  let hrPT := patient.personalizedThresholds.bind PersonalizedAlertThresholds.heartRate
  let spo2PT := patient.personalizedThresholds.bind PersonalizedAlertThresholds.spo2
  let a1 := checkAlert (rand.alertIds 0) now "Heart Rate" m5.heartRate
    ALERT_THRESHOLDS_HEART_RATE hrPT .critical .low s.alerts
  let a2 := checkAlert (rand.alertIds 1) now "Heart Rate" m5.heartRate
    ALERT_THRESHOLDS_HEART_RATE hrPT .warning .low a1
  let a3 := checkAlert (rand.alertIds 2) now "Heart Rate" m5.heartRate
    ALERT_THRESHOLDS_HEART_RATE hrPT .critical .high a2
  let a4 := checkAlert (rand.alertIds 3) now "Heart Rate" m5.heartRate
    ALERT_THRESHOLDS_HEART_RATE hrPT .warning .high a3
  let a5 := checkAlert (rand.alertIds 4) now "SpO₂" m5.spo2
    ALERT_THRESHOLDS_SPO2 spo2PT .critical .low a4
  let a6 := checkAlert (rand.alertIds 5) now "SpO₂" m5.spo2
    ALERT_THRESHOLDS_SPO2 spo2PT .warning .low a5
  let logDue := s.loggedVitals.isEmpty ||
    decide (now - ((s.loggedVitals.getLast?.map LoggedVitalSign.timestamp).getD 0) >
            AUTO_LOG_VITALS_INTERVAL_SECONDS * 1000)
  let loggedVitals :=
    if logDue then
      let updatedVitals := s.loggedVitals ++ [{ timestamp := now, metrics := m5 }]
      if updatedVitals.length > 200 then updatedVitals.drop 1 else updatedVitals
    else s.loggedVitals
  { s with metrics := m5, alerts := a6,
           lastBPUpdate := lastBPUpdate, lastTempUpdate := lastTempUpdate,
           lastRRUpdate := lastRRUpdate, loggedVitals := loggedVitals }

/-- The whole low-frequency loop body over the map: a patient id with no
matching registry entry is carried over unchanged. randOf gives the draws for
each patient id. -/
def vitalsLoop (randOf : String → VitalsRand) (now : Int)
    (patients : List Patient) (m : SimMap) : SimMap :=
  m.foldl
    (fun acc e =>
      match patients.find? (fun p => p.id = e.1) with
      | none => mapSet acc e.1 e.2
      | some p => mapSet acc e.1 (vitalsBody (randOf e.1) now p e.2))
    []

/-! ## AI-analysis completion callbacks (src/useCardiacDataSimulator.ts:254) -/

/-- The success completion of runHeartSenseAIAnalysis: it re-fetches the
current state for the patient id and is the identity on the map when no entry
exists. -/
def applyAIAnalysisSuccess (m : SimMap) (patientId : String)
    (aiOutput : HeartSenseAIOutput) (now : Int) : SimMap :=
  match mapLookup m patientId with
  | none => m
  | some currentSimData =>
    mapSet m patientId
      { currentSimData with
          heartSenseAIState :=
            { riskScore := aiOutput.riskScore, riskLevel := aiOutput.riskLevel,
              predictionReasoning := aiOutput.predictionReasoning,
              confidenceScore := aiOutput.confidenceScore,
              lastAnalyzedTimestamp := now, isLoading := false, error := none } }

/-- The error completion of runHeartSenseAIAnalysis, same re-fetch guard. -/
def applyAIAnalysisError (m : SimMap) (patientId : String) (errorMessage : String)
    (now : Int) : SimMap :=
  match mapLookup m patientId with
  | none => m
  | some currentSimData =>
    mapSet m patientId
      { currentSimData with
          heartSenseAIState :=
            { INITIAL_HEARTSENSE_AI_STATE with
                riskLevel := .errorAnalyzing,
                predictionReasoning := "An error occurred during analysis.",
                lastAnalyzedTimestamp := now, isLoading := false,
                error := some errorMessage } }

/-! ## Orchestrator operations (src/useCardiacDataSimulator.ts:510) -/

structure SimulatorState where
  patients : List Patient
  selectedPatientId : Option String
  simulationDataMap : SimMap
  deriving DecidableEq

/-- deletePatient: drops the map entry, filters the registry, and moves the
selection to the first remaining patient (or none) when the deleted patient
was selected. -/
def deletePatient (st : SimulatorState) (patientId : String) : SimulatorState :=
  let newMap := mapDelete st.simulationDataMap patientId
  let newPatients := st.patients.filter (fun p => ¬ p.id = patientId)
  let newSelected :=
    if st.selectedPatientId = some patientId then
      (match newPatients with
       | [] => none
       | p :: _ => some p.id)
    else st.selectedPatientId
  { patients := newPatients, selectedPatientId := newSelected, simulationDataMap := newMap }

def selectPatient (st : SimulatorState) (patientId : String) : SimulatorState :=
  { st with selectedPatientId := some patientId }

/-- Partial<Patient> for updatePatientDetails; a none field is absent from
the partial object. -/
structure PatientPatch where
  name : Option String := none
  age : Option Nat := none
  gender : Option String := none
  room : Option String := none
  notes : Option String := none
  diagnosis : Option String := none
  personalizedThresholds : Option PersonalizedAlertThresholds := none
  codeStatus : Option String := none
  source : Option String := none
  deriving DecidableEq, Repr

def applyPatientPatch (p : Patient) (d : PatientPatch) : Patient :=
  { p with name := d.name.getD p.name, age := d.age.getD p.age,
           gender := d.gender.getD p.gender, room := d.room.getD p.room,
           notes := (d.notes.map some).getD p.notes,
           diagnosis := (d.diagnosis.map some).getD p.diagnosis,
           personalizedThresholds :=
             (d.personalizedThresholds.map some).getD p.personalizedThresholds,
           codeStatus := (d.codeStatus.map some).getD p.codeStatus,
           source := (d.source.map some).getD p.source }

def updatePatientDetails (patients : List Patient) (patientId : String)
    (details : PatientPatch) : List Patient :=
  patients.map (fun p => if p.id = patientId then applyPatientPatch p details else p)

/-- setPatientRhythm; newHR models the RHYTHM_PARAMS[rhythm].simulatedHR()
draw used to refresh currentTargetHeartRate. -/
def setPatientRhythm (st : SimulatorState) (patientId : String) (rhythm : CardiacRhythm)
    (newHR : Rat) : SimulatorState :=
  let newPatients := st.patients.map
    (fun p => if p.id = patientId then { p with activeRhythm := rhythm } else p)
  let newMap :=
    match mapLookup st.simulationDataMap patientId with
    | none => st.simulationDataMap
    | some simData =>
      mapSet st.simulationDataMap patientId { simData with currentTargetHeartRate := newHR }
  { st with patients := newPatients, simulationDataMap := newMap }

def acknowledgePatientAlerts (m : SimMap) (patientId : String)
    (alertTypeToAcknowledge : Option AlertSeverity) : SimMap :=
  match mapLookup m patientId with
  | none => m
  | some simData =>
    let newAcknowledged := simData.alerts.foldl
      (fun acc alert =>
        if alertTypeToAcknowledge = none ∨ alertTypeToAcknowledge = some alert.severity then
          setAdd acc alert.id
        else acc)
      simData.acknowledgedAlertIds
    mapSet m patientId { simData with acknowledgedAlertIds := newAcknowledged }

/-- Partial<PacerSettings>. -/
structure PacerPatch where
  mode : Option PacerMode := none
  rate : Option Rat := none
  deriving DecidableEq, Repr

/-- updatePatientPacingSettings. The source spreads p.pacerSettings! with a
non-null assertion; every construction site sets the field, so the base value
is taken from the present settings (with the addPatient default as the
type-level fallback). -/
def updatePatientPacingSettings (patients : List Patient) (patientId : String)
    (settings : PacerPatch) : List Patient :=
  patients.map (fun p =>
    if p.id = patientId then
      let base := p.pacerSettings.getD { mode := .off, rate := 70 }
      { p with pacerSettings := some { mode := settings.mode.getD base.mode,
                                       rate := settings.rate.getD base.rate } }
    else p)

def updatePatientNoiseSignatures (patients : List Patient) (patientId : String)
    (signatures : List String) : List Patient :=
  patients.map (fun p =>
    if p.id = patientId then { p with noiseSignatures := signatures } else p)

/-- provideAlarmFeedback. mkId numbers the generateUniqueId() draws for the
feedback entries in iteration order; now models Date.now(). -/
def provideAlarmFeedback (mkId : Nat → String) (now : Int) (m : SimMap)
    (patientId : String) (feedbackType : AlarmFeedbackType)
    (alertSeverity : AlertSeverity) : SimMap :=
  match mapLookup m patientId with
  | none => m
  | some simData =>
    let unacknowledgedAlerts := simData.alerts.filter
      (fun a => a.severity = alertSeverity ∧ ¬ a.id ∈ simData.acknowledgedAlertIds)
    let shouldReconnectLead := unacknowledgedAlerts.any (fun a => a.message = "ECG Lead Off")
    let newAlarmFeedbackLog := simData.alarmFeedbackLog ++
      (unacknowledgedAlerts.enum.map (fun ia =>
        { id := mkId ia.1, patientId := patientId,
          alertSnapshot := { message := ia.2.message, severity := ia.2.severity,
                             metric := ia.2.metric, originalTimestamp := ia.2.timestamp },
          feedback := feedbackType, feedbackTimestamp := now }))
    let newAcknowledgedAlertIds := unacknowledgedAlerts.foldl
      (fun acc a => setAdd acc a.id) simData.acknowledgedAlertIds
    let s1 := { simData with alarmFeedbackLog := newAlarmFeedbackLog,
                             acknowledgedAlertIds := newAcknowledgedAlertIds }
    let s2 :=
      if shouldReconnectLead then
        { s1 with isLeadOff := false,
                  alerts := s1.alerts.filter (fun a => ¬ a.message = "ECG Lead Off") }
      else s1
    mapSet m patientId s2

/-- The per-entry update of toggleEcgLeadOff. -/
def toggleEcgLeadOffSim (freshId : String) (now : Int) (s : SimData) : SimData :=
  let newIsLeadOff := !s.isLeadOff
  let newAlerts :=
    if newIsLeadOff then
      (if s.alerts.any (fun a => a.message = "ECG Lead Off") then s.alerts
       else s.alerts ++ [{ id := freshId, message := "ECG Lead Off",
                           severity := .critical, timestamp := now, metric := "ECG" }])
    else s.alerts.filter (fun a => ¬ a.message = "ECG Lead Off")
  { s with isLeadOff := newIsLeadOff, alerts := newAlerts }

def toggleEcgLeadOff (m : SimMap) (patientId : String) (freshId : String)
    (now : Int) : SimMap :=
  match mapLookup m patientId with
  | none => m
  | some simData => mapSet m patientId (toggleEcgLeadOffSim freshId now simData)

/-! ## Concrete fixtures used by witnesses and counterexamples -/

def sinqZero : Rat → Rat := fun _ => 0

def piqZero : Rat := 0

def vitalsRandZero : VitalsRand :=
  { bpSysDelta := 0, bpDiaDelta := 0, tempDelta := 0, rrDelta := 0, alertIds := fun _ => "fid" }

def patientA : Patient :=
  { id := "A", name := "Alice", age := 60, gender := "Female", room := "ICU-1",
    activeRhythm := .NSR, pacerSettings := some { mode := .off, rate := 70 } }

def patientB : Patient :=
  { id := "B", name := "Ben", age := 70, gender := "Male", room := "ICU-2",
    activeRhythm := .NSR, pacerSettings := some { mode := .off, rate := 70 } }

def patientC : Patient :=
  { id := "C", name := "Cleo", age := 80, gender := "Female", room := "ICU-3",
    activeRhythm := .NSR, pacerSettings := some { mode := .off, rate := 70 } }

/-- A patient with demand pacing at rate 70. -/
def patientPaced : Patient :=
  { id := "P", name := "Pat", age := 75, gender := "Male", room := "ICU-4",
    activeRhythm := .SINUS_BRADYCARDIA,
    pacerSettings := some { mode := .demand, rate := 70 } }

/-- A small baseline simulation state for concrete evaluations. -/
def simSmall : SimData :=
  { metrics := { heartRate := 60, bloodPressure := { systolic := 120, diastolic := 80 },
                 spo2 := 98, temperature := 37, respiratoryRate := 12 }
    ecgData := [{ time := 0, value := 0 }]
    spo2WaveData := [{ time := 0, value := ECG_SPO2_BASELINE_VALUE }]
    respWaveData := [{ time := 0, value := 0 }]
    heartRateTrend := []
    alerts := []
    ecgPatternBuffer := []
    ecgBufferIndex := 0
    ecgCurrentTime := 1
    wenckebachCycleBeat := 0
    currentPRPoints := 0
    mobitzBeatInCycle := 0
    lastPWaveTime := 0
    lastQRSWaveTime := 0
    nextRRIntervalPoints := some 0
    pWaveCyclePosition := 0
    acknowledgedAlertIds := []
    loggedVitals := []
    timeSinceLastCardiacEventMs := 0
    lastBeatTimestamp := 0
    heartSenseAIState := INITIAL_HEARTSENSE_AI_STATE
    alarmFeedbackLog := []
    currentTargetHeartRate := 60
    lastBPUpdate := 0
    lastTempUpdate := 0
    lastRRUpdate := 0
    lastSpo2UpdateAttempt := 0
    nonNsrRhythmStartTime := none
    isLeadOff := false
    spo2PulsePatternBuffer := []
    spo2PulseBufferIndex := 0
    spo2NextPulseDue := false
    respirationCyclePosition := 0 }

/-- The C1 counterexample state: three patients, the middle one selected. -/
def stThree : SimulatorState :=
  { patients := [patientA, patientB, patientC], selectedPatientId := some "B",
    simulationDataMap := [] }

def ptLowCritical55 : MetricThresholds := { lowCritical := some 55 }

/-- The target rate adopted by a non-lead-off tick whose countdown has
expired: the demand pacer captures when enabled and the current heart rate is
below its programmed rate, otherwise the intrinsic draw of that tick. -/
def tickTargetRate (patient : Patient) (s : SimData) (intrinsicHR : Rat) : Rat :=
  let pacerSettings := patient.pacerSettings.getD { mode := .off, rate := 70 }
  if decide (pacerSettings.mode ≠ .off) && decide (s.metrics.heartRate < pacerSettings.rate)
  then pacerSettings.rate else intrinsicHR

/-- The freshly initialized simulation state of patient A (initial heart-rate
draw 80, respiratory-rate draw 12, load time 0). -/
def simInitialA : SimData := createInitialPatientSimData 80 80 12 0 patientA

/-- simSmall with the lead manually off. -/
def simSmallLeadOff : SimData := { simSmall with isLeadOff := true }


/-! ## Association-list map lemmas -/

theorem mapLookup_cons (e : String × SimData) (rest : SimMap) (j : String) :
    mapLookup (e :: rest) j = if e.1 = j then some e.2 else mapLookup rest j := by
  by_cases h : e.1 = j
  · simp [mapLookup, List.find?_cons_of_pos, h]
  · simp [mapLookup, List.find?_cons_of_neg, h]

theorem mapLookup_delete_self (m : SimMap) (k : String) :
    mapLookup (mapDelete m k) k = none := by
  induction m with
  | nil => rfl
  | cons e rest ih =>
    by_cases h : e.1 = k
    · simp only [mapDelete, List.filter_cons, h] at *
      simpa [h] using ih
    · simp only [mapDelete, List.filter_cons, h, not_false_iff, decide_True,
        if_true, mapLookup_cons, if_false]
      exact ih

theorem lookup_map_replace (k : String) (v : SimData) (j : String) (hj : ¬ j = k)
    (m : SimMap) :
    mapLookup (m.map (fun e => if e.1 = k then (k, v) else e)) j = mapLookup m j := by
  induction m with
  | nil => rfl
  | cons e rest ih =>
    rw [List.map_cons, mapLookup_cons, mapLookup_cons]
    by_cases h : e.1 = k
    · have hkj : ¬ k = j := fun hh => hj hh.symm
      have hej : ¬ e.1 = j := by rw [h]; exact hkj
      simp [h, hkj, hej, ih]
    · by_cases h2 : e.1 = j
      · simp [h, h2, hj]
      · simp [h, h2, ih]

theorem lookup_append_single (m : SimMap) (k : String) (v : SimData) (j : String)
    (hj : ¬ j = k) : mapLookup (m ++ [(k, v)]) j = mapLookup m j := by
  have hkj : ¬ k = j := fun hh => hj hh.symm
  induction m with
  | nil => simp [mapLookup_cons, hkj, mapLookup]
  | cons e rest ih =>
    rw [List.cons_append, mapLookup_cons, mapLookup_cons]
    by_cases h2 : e.1 = j
    · simp [h2]
    · simp [h2, ih]

theorem mapLookup_set_ne (m : SimMap) (k : String) (v : SimData) (j : String)
    (hj : ¬ j = k) : mapLookup (mapSet m k v) j = mapLookup m j := by
  rw [mapSet]
  split
  · exact lookup_map_replace k v j hj m
  · exact lookup_append_single m k v j hj

theorem lookup_map_replace_self (k : String) (v : SimData) (m : SimMap)
    (hany : m.any (fun e => e.1 = k) = true) :
    mapLookup (m.map (fun e => if e.1 = k then (k, v) else e)) k = some v := by
  induction m with
  | nil => simp at hany
  | cons e rest ih =>
    rw [List.map_cons, mapLookup_cons]
    by_cases h : e.1 = k
    · simp [h]
    · have hrest : rest.any (fun e => e.1 = k) = true := by
        rcases List.any_eq_true.mp hany with ⟨x, hx, hxk⟩
        rcases List.mem_cons.mp hx with hx | hx
        · exact absurd (by simpa [hx] using hxk) h
        · exact List.any_eq_true.mpr ⟨x, hx, hxk⟩
      simp [h, ih hrest]

theorem mapLookup_set_self (m : SimMap) (k : String) (v : SimData) :
    mapLookup (mapSet m k v) k = some v := by
  rw [mapSet]
  split
  · rename_i hany
    exact lookup_map_replace_self k v m hany
  · induction m with
    | nil => simp [mapLookup_cons, mapLookup]
    | cons e rest ih =>
      rename_i hnotany
      have h : ¬ e.1 = k := by
        intro hk
        exact hnotany (List.any_eq_true.mpr ⟨e, List.mem_cons_self e rest, by simpa using hk⟩)
      have hrest : ¬ rest.any (fun e => e.1 = k) = true := by
        intro hk
        rcases List.any_eq_true.mp hk with ⟨x, hx, hxk⟩
        exact hnotany (List.any_eq_true.mpr ⟨x, List.mem_cons_of_mem e hx, hxk⟩)
      rw [List.cons_append, mapLookup_cons]
      simp [h, ih hrest]

theorem map_ite_id (patients : List Patient) (pid : String) (f : Patient → Patient)
    (h : ∀ q ∈ patients, ¬ q.id = pid) :
    patients.map (fun p => if p.id = pid then f p else p) = patients := by
  induction patients with
  | nil => rfl
  | cons p rest ih =>
    have hp : ¬ p.id = pid := h p (List.mem_cons_self p rest)
    have hrest : ∀ q ∈ rest, ¬ q.id = pid := fun q hq => h q (List.mem_cons_of_mem p hq)
    simp [hp, ih hrest]

/-- C8: deleting a patient and then applying the later resolution of an
in-flight AI analysis for that id (successful or failed) leaves the
simulation map unchanged: the completion callback re-fetches the current
entry, finds none, and discards the result. Both callbacks are total
functions of the map, so nothing can throw, and no SimulationState entry is
resurrected for the deleted id. -/
theorem claimC8_ai_resolution_discarded_after_delete (st : SimulatorState) (pid : String)
    (out : HeartSenseAIOutput) (errMsg : String) (t1 t2 : Int) :
    applyAIAnalysisSuccess (deletePatient st pid).simulationDataMap pid out t1 =
      (deletePatient st pid).simulationDataMap ∧
    applyAIAnalysisError (deletePatient st pid).simulationDataMap pid errMsg t2 =
      (deletePatient st pid).simulationDataMap := by
  have h : mapLookup (deletePatient st pid).simulationDataMap pid = none := by
    show mapLookup (mapDelete st.simulationDataMap pid) pid = none
    exact mapLookup_delete_self _ _
  exact ⟨by rw [applyAIAnalysisSuccess, h], by rw [applyAIAnalysisError, h]⟩

/-- C9: every public orchestrator operation invoked with a patient id that is
present neither in the registry nor in the simulation map is a silent no-op:
each operation is a total function (nothing throws) and leaves every registry
entry and every SimulationState entry unchanged. -/
theorem claimC9_missing_id_silent_noop
    (patients : List Patient) (sel : Option String) (m : SimMap) (pid : String)
    (details : PatientPatch) (rhythm : CardiacRhythm) (newHR : Rat)
    (ack : Option AlertSeverity) (pacing : PacerPatch) (sigs : List String)
    (mkId : Nat → String) (fb : AlarmFeedbackType) (sev : AlertSeverity)
    (fid : String) (t1 t2 : Int)
    (hreg : ∀ q ∈ patients, ¬ q.id = pid)
    (hmap : mapLookup m pid = none) :
    (selectPatient ⟨patients, sel, m⟩ pid).patients = patients ∧
    (selectPatient ⟨patients, sel, m⟩ pid).simulationDataMap = m ∧
    updatePatientDetails patients pid details = patients ∧
    (setPatientRhythm ⟨patients, sel, m⟩ pid rhythm newHR).patients = patients ∧
    (setPatientRhythm ⟨patients, sel, m⟩ pid rhythm newHR).simulationDataMap = m ∧
    acknowledgePatientAlerts m pid ack = m ∧
    updatePatientPacingSettings patients pid pacing = patients ∧
    updatePatientNoiseSignatures patients pid sigs = patients ∧
    provideAlarmFeedback mkId t1 m pid fb sev = m ∧
    toggleEcgLeadOff m pid fid t2 = m := by
  refine ⟨rfl, ?_, ?_, ?_, ?_, ?_, ?_, ?_, ?_, ?_⟩
  · simp [selectPatient]
  · exact map_ite_id patients pid _ hreg
  · show patients.map _ = patients
    exact map_ite_id patients pid _ hreg
  · show (match mapLookup m pid with
      | none => m
      | some simData => mapSet m pid { simData with currentTargetHeartRate := newHR }) = m
    rw [hmap]
  · rw [acknowledgePatientAlerts, hmap]
  · exact map_ite_id patients pid _ hreg
  · exact map_ite_id patients pid _ hreg
  · rw [provideAlarmFeedback, hmap]
  · rw [toggleEcgLeadOff, hmap]

/-- Witness for C9 at a concrete one-patient state and the absent id Q. -/
theorem claimC9_missing_id_silent_noop_witness :
    (∀ q ∈ [patientA], ¬ q.id = "Q") ∧
    mapLookup [("A", simSmall)] "Q" = none ∧
    ((selectPatient ⟨[patientA], some "A", [("A", simSmall)]⟩ "Q").patients = [patientA] ∧
     (selectPatient ⟨[patientA], some "A", [("A", simSmall)]⟩ "Q").simulationDataMap =
       [("A", simSmall)] ∧
     updatePatientDetails [patientA] "Q" {} = [patientA] ∧
     (setPatientRhythm ⟨[patientA], some "A", [("A", simSmall)]⟩ "Q" .ASYSTOLE 0).patients =
       [patientA] ∧
     (setPatientRhythm ⟨[patientA], some "A", [("A", simSmall)]⟩ "Q" .ASYSTOLE 0).simulationDataMap =
       [("A", simSmall)] ∧
     acknowledgePatientAlerts [("A", simSmall)] "Q" none = [("A", simSmall)] ∧
     updatePatientPacingSettings [patientA] "Q" {} = [patientA] ∧
     updatePatientNoiseSignatures [patientA] "Q" [] = [patientA] ∧
     provideAlarmFeedback (fun _ => "fid") 0 [("A", simSmall)] "Q" .truePositive .critical =
       [("A", simSmall)] ∧
     toggleEcgLeadOff [("A", simSmall)] "Q" "fid" 0 = [("A", simSmall)]) :=
  ⟨by decide, by rfl,
   claimC9_missing_id_silent_noop [patientA] (some "A") [("A", simSmall)] "Q"
     {} .ASYSTOLE 0 none {} [] (fun _ => "fid") .truePositive .critical "fid" 0 0
     (by decide) (by rfl)⟩

theorem ecgLoop_fold_orphan (sinq : Rat → Rat) (piq : Rat) (now : Int)
    (ihrOf : String → Rat) (patients : List Patient) (pid : String)
    (horph : patients.find? (fun p => p.id = pid) = none) :
    ∀ (rest : SimMap) (acc : SimMap), mapLookup acc pid = none →
      mapLookup (rest.foldl (fun acc e =>
        match patients.find? (fun p => p.id = e.1) with
        | none => acc
        | some p => mapSet acc e.1 (ecgTick sinq piq now (ihrOf e.1) p e.2)) acc) pid = none := by
  intro rest
  induction rest with
  | nil => intro acc h; exact h
  | cons e rest ih =>
    intro acc h
    rw [List.foldl_cons]
    apply ih
    by_cases hk : e.1 = pid
    · have hfind : patients.find? (fun p => p.id = e.1) = none := by rw [hk]; exact horph
      simpa [hfind] using h
    · have hne : ¬ pid = e.1 := fun hh => hk hh.symm
      cases hfind : patients.find? (fun p => p.id = e.1) with
      | none => simpa [hfind] using h
      | some p =>
        simp only [hfind]
        rw [mapLookup_set_ne _ _ _ _ hne]
        exact h

theorem vitalsLoop_fold_keep_after (randOf : String → VitalsRand) (now : Int)
    (patients : List Patient) (pid : String) (s : SimData) :
    ∀ (rest : SimMap) (acc : SimMap), (∀ e ∈ rest, ¬ e.1 = pid) →
      mapLookup acc pid = some s →
      mapLookup (rest.foldl (fun acc e =>
        match patients.find? (fun p => p.id = e.1) with
        | none => mapSet acc e.1 e.2
        | some p => mapSet acc e.1 (vitalsBody (randOf e.1) now p e.2)) acc) pid = some s := by
  intro rest
  induction rest with
  | nil => intro acc _ h; exact h
  | cons e rest ih =>
    intro acc hkeys h
    rw [List.foldl_cons]
    have hke : ¬ e.1 = pid := hkeys e (List.mem_cons_self e rest)
    have hne : ¬ pid = e.1 := fun hh => hke hh.symm
    apply ih _ (fun x hx => hkeys x (List.mem_cons_of_mem e hx))
    cases hfind : patients.find? (fun p => p.id = e.1) with
    | none =>
      simp only [hfind]
      rw [mapLookup_set_ne _ _ _ _ hne]
      exact h
    | some p =>
      simp only [hfind]
      rw [mapLookup_set_ne _ _ _ _ hne]
      exact h

theorem vitalsLoop_fold_carry (randOf : String → VitalsRand) (now : Int)
    (patients : List Patient) (pid : String)
    (horph : patients.find? (fun p => p.id = pid) = none) :
    ∀ (rest : SimMap) (acc : SimMap) (s : SimData),
      mapLookup rest pid = some s → (rest.map Prod.fst).Nodup →
      mapLookup acc pid = none →
      mapLookup (rest.foldl (fun acc e =>
        match patients.find? (fun p => p.id = e.1) with
        | none => mapSet acc e.1 e.2
        | some p => mapSet acc e.1 (vitalsBody (randOf e.1) now p e.2)) acc) pid = some s := by
  intro rest
  induction rest with
  | nil =>
    intro acc s h
    simp [mapLookup] at h
  | cons e rest ih =>
    intro acc s h hnodup hacc
    rw [List.foldl_cons]
    by_cases hk : e.1 = pid
    · have hs : e.2 = s := by
        rw [mapLookup_cons] at h
        simpa [hk] using h
      have hfind : patients.find? (fun p => p.id = e.1) = none := by rw [hk]; exact horph
      have hnodup1 : (e.1 :: rest.map Prod.fst).Nodup := by
        rw [List.map_cons] at hnodup
        exact hnodup
      have hnotmem : e.1 ∉ rest.map Prod.fst := (List.nodup_cons.mp hnodup1).1
      have hkeys : ∀ x ∈ rest, ¬ x.1 = pid := by
        intro x hx hxpid
        refine hnotmem ?_
        rw [hk, ← hxpid]
        exact List.mem_map.mpr ⟨x, hx, rfl⟩
      apply vitalsLoop_fold_keep_after randOf now patients pid s rest _ hkeys
      simp only [hfind]
      rw [← hs, ← hk]
      exact mapLookup_set_self acc e.1 e.2
    · have h2 : mapLookup rest pid = some s := by
        rw [mapLookup_cons] at h
        simpa [hk] using h
      have hnodup1 : (e.1 :: rest.map Prod.fst).Nodup := by
        rw [List.map_cons] at hnodup
        exact hnodup
      have hnodup2 : (rest.map Prod.fst).Nodup := (List.nodup_cons.mp hnodup1).2
      have hne : ¬ pid = e.1 := fun hh => hk hh.symm
      apply ih _ s h2 hnodup2
      cases hfind : patients.find? (fun p => p.id = e.1) with
      | none =>
        simp only [hfind]
        rw [mapLookup_set_ne _ _ _ _ hne]
        exact hacc
      | some p =>
        simp only [hfind]
        rw [mapLookup_set_ne _ _ _ _ hne]
        exact hacc

/-- C10: the two periodic loops treat an orphaned simulation entry (an entry
whose patient id has no matching registry entry) differently: the
high-frequency loop drops it from the new map entirely, while the
low-frequency loop carries it over with its value unchanged. -/
theorem claimC10_orphan_entry_treatment (sinq : Rat → Rat) (piq : Rat) (now : Int)
    (ihrOf : String → Rat) (randOf : String → VitalsRand)
    (patients : List Patient) (m : SimMap) (pid : String) (s : SimData)
    (horph : patients.find? (fun p => p.id = pid) = none)
    (hmem : mapLookup m pid = some s)
    (hnodup : (m.map Prod.fst).Nodup) :
    mapLookup (ecgLoop sinq piq now ihrOf patients m) pid = none ∧
    mapLookup (vitalsLoop randOf now patients m) pid = some s :=
  ⟨ecgLoop_fold_orphan sinq piq now ihrOf patients pid horph m [] rfl,
   vitalsLoop_fold_carry randOf now patients pid horph m [] s hmem hnodup rfl⟩

/-- Witness for C10 at a one-entry map whose id Z has no registry entry. -/
theorem claimC10_orphan_entry_treatment_witness :
    [patientA].find? (fun p => p.id = "Z") = none ∧
    mapLookup [("Z", simSmall)] "Z" = some simSmall ∧
    (([("Z", simSmall)] : SimMap).map Prod.fst).Nodup ∧
    (mapLookup (ecgLoop sinqZero piqZero 0 (fun _ => 70) [patientA] [("Z", simSmall)]) "Z" =
       none ∧
     mapLookup (vitalsLoop (fun _ => vitalsRandZero) 0 [patientA] [("Z", simSmall)]) "Z" =
       some simSmall) :=
  ⟨by decide, by rfl, by simp,
   claimC10_orphan_entry_treatment sinqZero piqZero 0 (fun _ => 70)
     (fun _ => vitalsRandZero) [patientA] [("Z", simSmall)] "Z" simSmall
     (by decide) (by rfl) (by simp)⟩

/-- C1 counterexample: in the registry [A, B, C] with B selected, deleting B
moves the selection to A (the first remaining patient), while the patient now
occupying the deleted list position (index 1) is C, the new last patient is
C, and patients remain; so the selection matches none of the three cases the
claim allows. -/
theorem claimC1_counterexample :
    (deletePatient stThree "B").selectedPatientId = some "A" ∧
    ((deletePatient stThree "B").patients.map Patient.id) = ["A", "C"] ∧
    ¬ ((deletePatient stThree "B").selectedPatientId =
         ((deletePatient stThree "B").patients.get? 1).map Patient.id ∨
       (deletePatient stThree "B").selectedPatientId =
         ((deletePatient stThree "B").patients.getLast?).map Patient.id ∨
       (deletePatient stThree "B").selectedPatientId = none) := by
  decide

/-- C1 amended: for every call to deletePatient(id) where id is the currently
selected patient, the selection afterwards is the first patient of the
remaining registry, or null if no patients remain. -/
theorem claimC1_delete_selection_amended (st : SimulatorState) (pid : String)
    (h : st.selectedPatientId = some pid) :
    (deletePatient st pid).selectedPatientId =
      ((st.patients.filter (fun p => ¬ p.id = pid)).head?).map Patient.id := by
  simp only [deletePatient, h, if_pos]
  cases hf : st.patients.filter (fun p => ¬ p.id = pid) with
  | nil => simp
  | cons p rest => simp

/-- Witness for C1 amended at the concrete three-patient state. -/
theorem claimC1_delete_selection_amended_witness :
    stThree.selectedPatientId = some "B" ∧
    (deletePatient stThree "B").selectedPatientId =
      ((stThree.patients.filter (fun p => ¬ p.id = "B")).head?).map Patient.id :=
  ⟨rfl, claimC1_delete_selection_amended stThree "B" rfl⟩

/-- C4 counterexample: the de-duplication key is the full message text, which
embeds the metric value. The evaluator calls checkAlert once per tick per
condition; with a personalized low-critical heart-rate threshold of 55 and
the displayed heart rate converging downward by 2 per tick, two consecutive
low-frequency ticks evaluate the same (Heart Rate, critical, low) condition
at values 50 and then 48, and after the second evaluation two active critical
Heart Rate alerts exist, not exactly one. -/
theorem claimC4_counterexample :
    ((checkAlert "id2" 1 "Heart Rate" 48 ALERT_THRESHOLDS_HEART_RATE
        (some ptLowCritical55) .critical .low
        (checkAlert "id1" 0 "Heart Rate" 50 ALERT_THRESHOLDS_HEART_RATE
          (some ptLowCritical55) .critical .low [])).map Alert.message) =
      ["Heart Rate Low: 50", "Heart Rate Low: 48"] ∧
    ((checkAlert "id2" 1 "Heart Rate" 48 ALERT_THRESHOLDS_HEART_RATE
        (some ptLowCritical55) .critical .low
        (checkAlert "id1" 0 "Heart Rate" 50 ALERT_THRESHOLDS_HEART_RATE
          (some ptLowCritical55) .critical .low [])).filter
      (fun a => a.metric = "Heart Rate" ∧ a.severity = AlertSeverity.critical)).length = 2 := by
  constructor
  · decide
  · decide

/-- C4 amended: de-duplication is keyed on the exact (message, severity)
pair: while an active alert with identical message and severity is present no
duplicate is inserted, so repeating the same condition with the same value
across consecutive ticks leaves exactly one alert; checkAlert is idempotent
in its alert-list argument for fixed metric, value, thresholds, severity and
direction, whatever fresh id and timestamp the repeat draws. A repeat with a
different value adds a separate alert whose message carries the new value. -/
theorem claimC4_dedup_amended (fid1 fid2 : String) (t1 t2 : Int) (metric : String)
    (value : Rat) (gt : GlobalThresholds) (pt : Option MetricThresholds)
    (sev : AlertSeverity) (dir : AlertDirection) (alerts : List Alert) :
    checkAlert fid2 t2 metric value gt pt sev dir
      (checkAlert fid1 t1 metric value gt pt sev dir alerts) =
    checkAlert fid1 t1 metric value gt pt sev dir alerts := by
  by_cases htrig : alertTriggered value (alertThreshold gt pt sev dir) dir = true
  · simp only [checkAlert]
    rw [if_pos htrig, if_pos htrig]
    by_cases hdup : (alerts.any (fun a => a.message = mkAlertMessage metric dir value ∧
        a.severity = sev)) = true
    · rw [if_pos hdup, if_pos hdup]
    · rw [if_neg hdup]
      have happ : (((alerts ++
          [(⟨fid1, mkAlertMessage metric dir value, sev, t1, metric⟩ : Alert)]).any
            (fun a => a.message = mkAlertMessage metric dir value ∧ a.severity = sev))) = true := by
        rw [List.any_append]
        simp [List.any]
      rw [if_pos happ]
  · simp only [checkAlert]
    rw [if_neg htrig, if_neg htrig]

/-- C6: with the threshold resolved as the personalized override for the
severity when present and otherwise the global default, a low-direction
evaluation of checkAlert grows the alert list (when no identical alert is
active) exactly when value < threshold, and a high-direction evaluation
exactly when value > threshold. -/
theorem claimC6_threshold_resolution_direction (fid : String) (t : Int) (metric : String)
    (value Tlow Thigh : Rat) (gt : GlobalThresholds) (pt : Option MetricThresholds)
    (sev : AlertSeverity) (alerts : List Alert)
    (hTlow : jsCoalesce (personalizedFor pt sev .low) (globalFor gt sev .low) = some Tlow)
    (hThigh : jsCoalesce (personalizedFor pt sev .high) (globalFor gt sev .high) = some Thigh)
    (hdupLow : (alerts.any (fun a => a.message = mkAlertMessage metric .low value ∧
        a.severity = sev)) = false)
    (hdupHigh : (alerts.any (fun a => a.message = mkAlertMessage metric .high value ∧
        a.severity = sev)) = false) :
    ((checkAlert fid t metric value gt pt sev .low alerts).length = alerts.length + 1 ↔
      value < Tlow) ∧
    ((checkAlert fid t metric value gt pt sev .high alerts).length = alerts.length + 1 ↔
      value > Thigh) := by
  have hthrL : alertThreshold gt pt sev .low = some Tlow := hTlow
  have hthrH : alertThreshold gt pt sev .high = some Thigh := hThigh
  constructor
  · simp only [checkAlert, hthrL]
    by_cases hlt : value < Tlow
    · have htrig : alertTriggered value (some Tlow) .low = true := by
        simp [alertTriggered, hlt]
      rw [if_pos htrig, if_neg (by rw [hdupLow]; exact Bool.false_ne_true)]
      simp [hlt]
    · have htrig : ¬ alertTriggered value (some Tlow) .low = true := by
        simp [alertTriggered, hlt]
      rw [if_neg htrig]
      simp only [hlt, iff_false]
      omega
  · simp only [checkAlert, hthrH]
    by_cases hgt : value > Thigh
    · have htrig : alertTriggered value (some Thigh) .high = true := by
        simp [alertTriggered, hgt]
      rw [if_pos htrig, if_neg (by rw [hdupHigh]; exact Bool.false_ne_true)]
      simp [hgt]
    · have htrig : ¬ alertTriggered value (some Thigh) .high = true := by
        simp [alertTriggered, hgt]
      rw [if_neg htrig]
      simp only [hgt, iff_false]
      omega

/-- Witness for C6: heart-rate global defaults, no personalized overrides,
value 35, critical severity. -/
theorem claimC6_threshold_resolution_direction_witness :
    jsCoalesce (personalizedFor none AlertSeverity.critical .low)
      (globalFor ALERT_THRESHOLDS_HEART_RATE AlertSeverity.critical .low) = some 40 ∧
    jsCoalesce (personalizedFor none AlertSeverity.critical .high)
      (globalFor ALERT_THRESHOLDS_HEART_RATE AlertSeverity.critical .high) = some 130 ∧
    (((checkAlert "w" 0 "Heart Rate" 35 ALERT_THRESHOLDS_HEART_RATE none
         .critical .low ([] : List Alert)).length = ([] : List Alert).length + 1 ↔
       (35 : Rat) < 40) ∧
     ((checkAlert "w" 0 "Heart Rate" 35 ALERT_THRESHOLDS_HEART_RATE none
         .critical .high ([] : List Alert)).length = ([] : List Alert).length + 1 ↔
       (35 : Rat) > 130)) :=
  ⟨by rfl, by rfl,
   claimC6_threshold_resolution_direction "w" 0 "Heart Rate" 35 40 130
     ALERT_THRESHOLDS_HEART_RATE none .critical [] (by rfl) (by rfl) rfl rfl⟩

/-- C2: on a high-frequency tick where the countdown has reached zero, the
patient is between beats (pattern cursor at 0), the pacer is in demand mode
at rate R with the current heart rate below R, and R > 0, the emitted beat is
paced: the loaded pattern is the pacer-spike pattern concatenated with the
paced-QRS pattern, the target rate becomes R, and the countdown is recomputed
from R (then decremented by the same tick) independently of the
intrinsic-rate draw, which the statement quantifies over. -/
theorem claimC2_demand_pacing_capture (sinq : Rat → Rat) (piq : Rat) (now : Int)
    (intrinsicHR R : Rat) (patient : Patient) (s : SimData)
    (hlead : s.isLeadOff = false)
    (hdue : rrLE0 s.nextRRIntervalPoints = true)
    (hpacer : patient.pacerSettings = some { mode := .demand, rate := R })
    (hhr : s.metrics.heartRate < R)
    (hidx : s.ecgBufferIndex = 0)
    (hR : 0 < R) :
    (ecgTick sinq piq now intrinsicHR patient s).ecgPatternBuffer =
      ECG_PACER_SPIKE_PATTERN ++ ECG_PACED_QRS_PATTERN ∧
    (ecgTick sinq piq now intrinsicHR patient s).currentTargetHeartRate = R ∧
    (ecgTick sinq piq now intrinsicHR patient s).nextRRIntervalPoints =
      some ((60 / R) * pointsPerSecond - 1) := by
  have hlead2 : ¬ (s.isLeadOff = true) := by rw [hlead]; exact Bool.false_ne_true
  refine ⟨?_, ?_, ?_⟩ <;>
  · simp only [ecgTick]
    rw [if_neg hlead2]
    simp [hpacer, hdue, hidx, decide_eq_true hhr, hR, rrDec,
      ECG_PACER_SPIKE_PATTERN, ECG_PACED_QRS_PATTERN]

/-- Witness for C2: a bradycardic patient at heart rate 60 with a demand
pacer at 70 and an expired countdown. -/
theorem claimC2_demand_pacing_capture_witness :
    simSmall.isLeadOff = false ∧
    rrLE0 simSmall.nextRRIntervalPoints = true ∧
    patientPaced.pacerSettings = some { mode := .demand, rate := 70 } ∧
    simSmall.metrics.heartRate < 70 ∧
    simSmall.ecgBufferIndex = 0 ∧
    (0 : Rat) < 70 ∧
    ((ecgTick sinqZero piqZero 0 45 patientPaced simSmall).ecgPatternBuffer =
       ECG_PACER_SPIKE_PATTERN ++ ECG_PACED_QRS_PATTERN ∧
     (ecgTick sinqZero piqZero 0 45 patientPaced simSmall).currentTargetHeartRate = 70 ∧
     (ecgTick sinqZero piqZero 0 45 patientPaced simSmall).nextRRIntervalPoints =
       some ((60 / 70) * pointsPerSecond - 1)) :=
  ⟨rfl, rfl, rfl, by decide, rfl, by decide,
   claimC2_demand_pacing_capture sinqZero piqZero 0 45 70 patientPaced simSmall
     rfl rfl rfl (by decide) rfl (by decide)⟩

/-- C3 counterexample: with target rate 70 (pacer off, intrinsic draw 70) the
tick stores the exact fractional countdown (60/70)*40 = 240/7 = 34.2857...
(then decrements it), which differs from the rounded value
round((60/70)*40) = 34 the claim specifies. -/
theorem claimC3_counterexample :
    (ecgTick sinqZero piqZero 0 70 patientA simSmall).nextRRIntervalPoints =
      some ((60 / 70) * pointsPerSecond - 1) ∧
    round ((60 / 70 : Rat) * pointsPerSecond) = 34 ∧
    ¬ ((60 / 70 : Rat) * pointsPerSecond = 34) := by
  refine ⟨by rfl, ?_, by norm_num [pointsPerSecond, SIMULATION_ECG_INTERVAL_MS]⟩
  have hx : ((60 / 70 : Rat) * pointsPerSecond) = 240 / 7 := by
    norm_num [pointsPerSecond, SIMULATION_ECG_INTERVAL_MS]
  rw [hx, round_eq]
  have hfl : ⌊(240 / 7 : Rat) + 1 / 2⌋ = 34 := by
    apply Int.floor_eq_iff.mpr
    constructor <;> norm_num
  simpa using hfl

/-- C3 amended: whenever a new beat is due on a non-lead-off tick, the
countdown is set to the exact value (60 / targetRate) * samplesPerSecond
(no rounding; the stored value is fractional in general) when the target rate
is positive, and to Infinity (never; an absorbing value) when the target rate
is 0; the same tick then decrements it by one, as does every later
non-lead-off tick on which no beat is due, while an Infinity countdown stays
Infinity so no further beat is ever scheduled. -/
theorem claimC3_countdown_amended (sinq : Rat → Rat) (piq : Rat) (now : Int)
    (intrinsicHR : Rat) (patient : Patient) (s : SimData)
    (hlead : s.isLeadOff = false) :
    (rrLE0 s.nextRRIntervalPoints = true →
       (ecgTick sinq piq now intrinsicHR patient s).nextRRIntervalPoints =
         rrDec (if tickTargetRate patient s intrinsicHR > 0 then
                  some ((60 / tickTargetRate patient s intrinsicHR) * pointsPerSecond)
                else none)) ∧
    (rrLE0 s.nextRRIntervalPoints = false →
       (ecgTick sinq piq now intrinsicHR patient s).nextRRIntervalPoints =
         rrDec s.nextRRIntervalPoints) ∧
    (s.nextRRIntervalPoints = none →
       (ecgTick sinq piq now intrinsicHR patient s).nextRRIntervalPoints = none) := by
  have hlead2 : ¬ (s.isLeadOff = true) := by rw [hlead]; exact Bool.false_ne_true
  refine ⟨?_, ?_, ?_⟩
  · intro hdue
    simp only [ecgTick]
    rw [if_neg hlead2]
    simp [hdue, tickTargetRate]
  · intro hnd
    simp only [ecgTick]
    rw [if_neg hlead2]
    simp [hnd]
  · intro hnone
    have hnd : rrLE0 s.nextRRIntervalPoints = false := by rw [hnone]; rfl
    simp only [ecgTick]
    rw [if_neg hlead2]
    simp [hnd, hnone, rrDec, rrLE0]

/-- Witness for C3 amended at the concrete expired-countdown state. -/
theorem claimC3_countdown_amended_witness :
    simSmall.isLeadOff = false ∧
    rrLE0 simSmall.nextRRIntervalPoints = true ∧
    (ecgTick sinqZero piqZero 0 70 patientA simSmall).nextRRIntervalPoints =
      rrDec (if tickTargetRate patientA simSmall 70 > 0 then
               some ((60 / tickTargetRate patientA simSmall 70) * pointsPerSecond)
             else none) :=
  ⟨rfl, rfl,
   (claimC3_countdown_amended sinqZero piqZero 0 70 patientA simSmall rfl).1 rfl⟩

theorem getLast?_append_singleton {α : Type} (l : List α) (a : α) :
    (l ++ [a]).getLast? = some a :=
  List.getLast?_concat l

theorem length_drop_one_append {α : Type} (l : List α) (a : α) (h : 0 < l.length) :
    (l.drop 1 ++ [a]).length = l.length := by
  rw [List.length_append, List.length_drop]
  simp
  omega

/-- C7: from the baseline state (lead off, no active lead-off alert), two
consecutive toggleEcgLeadOff updates restore the active-alert collection and
the isLeadOff flag exactly, whatever fresh ids and timestamps the two calls
draw; and while lead-off is on, a high-frequency tick appends 0 as the new
ECG sample and forces the displayed heart rate to 0, for every patient and
hence every active rhythm. -/
theorem claimC7_leadoff_double_toggle_and_forcing (fid1 fid2 : String) (t1 t2 now : Int)
    (sinq : Rat → Rat) (piq intrinsicHR : Rat) (patient : Patient) (s sOn : SimData)
    (hoff : s.isLeadOff = false)
    (hnoalert : (s.alerts.any (fun a => a.message = "ECG Lead Off")) = false)
    (hon : sOn.isLeadOff = true) :
    (toggleEcgLeadOffSim fid2 t2 (toggleEcgLeadOffSim fid1 t1 s)).alerts = s.alerts ∧
    (toggleEcgLeadOffSim fid2 t2 (toggleEcgLeadOffSim fid1 t1 s)).isLeadOff = s.isLeadOff ∧
    ((ecgTick sinq piq now intrinsicHR patient sOn).ecgData.getLast?).map
      ECGDataPoint.value = some 0 ∧
    (ecgTick sinq piq now intrinsicHR patient sOn).metrics.heartRate = 0 := by
  have hany : ¬ ((s.alerts.any (fun a => a.message = "ECG Lead Off")) = true) := by
    rw [hnoalert]; exact Bool.false_ne_true
  have hkeep : ∀ a ∈ s.alerts, ¬ (a.message = "ECG Lead Off") := by
    intro a ha hmsg
    have hx : (s.alerts.any (fun a => a.message = "ECG Lead Off")) = true :=
      List.any_eq_true.mpr ⟨a, ha, by simp [hmsg]⟩
    rw [hnoalert] at hx
    exact Bool.false_ne_true hx
  have h1 : toggleEcgLeadOffSim fid1 t1 s =
      { s with isLeadOff := true,
               alerts := s.alerts ++
                 [⟨fid1, "ECG Lead Off", .critical, t1, "ECG"⟩] } := by
    simp only [toggleEcgLeadOffSim, hoff, Bool.not_false, if_true]
    rw [if_neg hany]
  refine ⟨?_, ?_, ?_, ?_⟩
  · rw [h1]
    simp only [toggleEcgLeadOffSim, Bool.not_true]
    rw [if_neg (by exact Bool.false_ne_true)]
    rw [List.filter_append]
    rw [List.filter_eq_self.mpr (fun a ha => by simpa using hkeep a ha)]
    simp
  · rw [h1]
    simp [toggleEcgLeadOffSim, hoff]
  · simp only [ecgTick]
    rw [if_pos hon]
    simp [getLast?_append_singleton]
  · simp only [ecgTick]
    rw [if_pos hon]

/-- Witness for C7 at the concrete baseline state and its lead-off variant. -/
theorem claimC7_leadoff_double_toggle_and_forcing_witness :
    simSmall.isLeadOff = false ∧
    (simSmall.alerts.any (fun a => a.message = "ECG Lead Off")) = false ∧
    simSmallLeadOff.isLeadOff = true ∧
    ((toggleEcgLeadOffSim "f2" 2 (toggleEcgLeadOffSim "f1" 1 simSmall)).alerts =
       simSmall.alerts ∧
     (toggleEcgLeadOffSim "f2" 2 (toggleEcgLeadOffSim "f1" 1 simSmall)).isLeadOff =
       simSmall.isLeadOff ∧
     ((ecgTick sinqZero piqZero 0 70 patientA simSmallLeadOff).ecgData.getLast?).map
       ECGDataPoint.value = some 0 ∧
     (ecgTick sinqZero piqZero 0 70 patientA simSmallLeadOff).metrics.heartRate = 0) :=
  ⟨rfl, rfl, rfl,
   claimC7_leadoff_double_toggle_and_forcing "f1" "f2" 1 2 0 sinqZero piqZero 70
     patientA simSmall simSmallLeadOff rfl rfl rfl⟩

theorem MAX_ECG_DATA_POINTS_eq : MAX_ECG_DATA_POINTS = 400 := by
  rw [MAX_ECG_DATA_POINTS, ECG_TIME_WINDOW_SECONDS, SIMULATION_ECG_INTERVAL_MS]
  rw [show (10 : Rat) * (1000 / 25) = ((400 : Int) : Rat) by norm_num]
  rw [Int.ceil_intCast]
  rfl

theorem getInitialEcgData_getLast :
    getInitialEcgData.getLast? = some { time := 399, value := 0 } := by
  rw [getInitialEcgData, MAX_ECG_DATA_POINTS_eq,
      show (400 : Nat) = 399 + 1 from rfl, List.range_succ, List.map_append]
  simp [getLast?_append_singleton]

theorem getInitialEcgData_length : getInitialEcgData.length = 400 := by
  rw [getInitialEcgData, List.length_map, List.length_range, MAX_ECG_DATA_POINTS_eq]

/-- C5 counterexample: the seeded initial ECG buffer carries placeholder
indices 0..399 while the per-patient sample counter starts at 0, so after the
very first tick the newest sample has sequence index 0, not 399 + 1: the
newest appended index is not one greater than the previous newest of the
buffer, and the index sequence restarts at 0 at session start. -/
theorem claimC5_counterexample :
    (simInitialA.ecgData.getLast?).map ECGDataPoint.time = some 399 ∧
    ((ecgTick sinqZero piqZero 0 75 patientA simInitialA).ecgData.getLast?).map
      ECGDataPoint.time = some 0 ∧
    ¬ ((0 : Nat) = 399 + 1) := by
  refine ⟨?_, ?_, by decide⟩
  · show (getInitialEcgData.getLast?).map ECGDataPoint.time = some 399
    rw [getInitialEcgData_getLast]
    rfl
  · have hlead2 : ¬ (simInitialA.isLeadOff = true) := by
      rw [show simInitialA.isLeadOff = false from rfl]
      exact Bool.false_ne_true
    simp only [ecgTick]
    rw [if_neg hlead2]
    simp [getLast?_append_singleton]
    rfl

/-- C5 amended: every tick preserves the length of each of the three
waveform buffers (one sample dropped, one appended); the per-patient sample
counter increments by exactly one per tick; the ECG sample appended by a tick
is stamped with the pre-increment counter, while the SpO2 and respiration
samples are stamped with the post-increment counter on a normal tick and the
pre-increment counter on a lead-off tick. Consequently, the index appended to
a given buffer grows by exactly one across ticks that stay in one branch, but
the seeded initial buffers hold indices 0..N-1 while the counter starts at 0,
so the first appended ECG index is 0 rather than N, and a lead-off toggle
between ticks repeats or skips one SpO2/respiration index. -/
theorem claimC5_buffers_amended (sinq : Rat → Rat) (piq : Rat) (now : Int)
    (intrinsicHR : Rat) (patient : Patient) (s : SimData) :
    (0 < s.ecgData.length →
       (ecgTick sinq piq now intrinsicHR patient s).ecgData.length = s.ecgData.length) ∧
    (0 < s.spo2WaveData.length →
       (ecgTick sinq piq now intrinsicHR patient s).spo2WaveData.length =
         s.spo2WaveData.length) ∧
    (0 < s.respWaveData.length →
       (ecgTick sinq piq now intrinsicHR patient s).respWaveData.length =
         s.respWaveData.length) ∧
    (ecgTick sinq piq now intrinsicHR patient s).ecgCurrentTime = s.ecgCurrentTime + 1 ∧
    ((ecgTick sinq piq now intrinsicHR patient s).ecgData.getLast?).map
      ECGDataPoint.time = some s.ecgCurrentTime ∧
    (s.isLeadOff = false →
       ((ecgTick sinq piq now intrinsicHR patient s).spo2WaveData.getLast?).map
         ECGDataPoint.time = some (s.ecgCurrentTime + 1) ∧
       ((ecgTick sinq piq now intrinsicHR patient s).respWaveData.getLast?).map
         ECGDataPoint.time = some (s.ecgCurrentTime + 1)) ∧
    (s.isLeadOff = true →
       ((ecgTick sinq piq now intrinsicHR patient s).spo2WaveData.getLast?).map
         ECGDataPoint.time = some s.ecgCurrentTime ∧
       ((ecgTick sinq piq now intrinsicHR patient s).respWaveData.getLast?).map
         ECGDataPoint.time = some s.ecgCurrentTime) := by
  cases hld : s.isLeadOff with
  | false =>
    have hlead2 : ¬ (s.isLeadOff = true) := by rw [hld]; exact Bool.false_ne_true
    refine ⟨?_, ?_, ?_, ?_, ?_, ?_, ?_⟩
    · intro h
      simp only [ecgTick]
      rw [if_neg hlead2]
      exact length_drop_one_append _ _ h
    · intro h
      simp only [ecgTick]
      rw [if_neg hlead2]
      exact length_drop_one_append _ _ h
    · intro h
      simp only [ecgTick]
      rw [if_neg hlead2]
      exact length_drop_one_append _ _ h
    · simp only [ecgTick]
      rw [if_neg hlead2]
    · simp only [ecgTick]
      rw [if_neg hlead2]
      simp [getLast?_append_singleton]
    · intro _
      constructor
      · simp only [ecgTick]
        rw [if_neg hlead2]
        simp [getLast?_append_singleton]
      · simp only [ecgTick]
        rw [if_neg hlead2]
        simp [getLast?_append_singleton]
    · intro hh
      exact absurd hh Bool.false_ne_true
  | true =>
    refine ⟨?_, ?_, ?_, ?_, ?_, ?_, ?_⟩
    · intro h
      simp only [ecgTick]
      rw [if_pos hld]
      exact length_drop_one_append _ _ h
    · intro h
      simp only [ecgTick]
      rw [if_pos hld]
      exact length_drop_one_append _ _ h
    · intro h
      simp only [ecgTick]
      rw [if_pos hld]
      exact length_drop_one_append _ _ h
    · simp only [ecgTick]
      rw [if_pos hld]
    · simp only [ecgTick]
      rw [if_pos hld]
      simp [getLast?_append_singleton]
    · intro hh
      exact absurd hh (by simp)
    · intro _
      constructor
      · simp only [ecgTick]
        rw [if_pos hld]
        simp [getLast?_append_singleton]
      · simp only [ecgTick]
        rw [if_pos hld]
        simp [getLast?_append_singleton]

/-- Witness for C5 amended at the freshly initialized state of patient A. -/
theorem claimC5_buffers_amended_witness :
    0 < simInitialA.ecgData.length ∧
    simInitialA.isLeadOff = false ∧
    ((ecgTick sinqZero piqZero 0 75 patientA simInitialA).ecgData.length =
       simInitialA.ecgData.length ∧
     (ecgTick sinqZero piqZero 0 75 patientA simInitialA).ecgCurrentTime =
       simInitialA.ecgCurrentTime + 1 ∧
     ((ecgTick sinqZero piqZero 0 75 patientA simInitialA).spo2WaveData.getLast?).map
       ECGDataPoint.time = some (simInitialA.ecgCurrentTime + 1)) := by
  have h := claimC5_buffers_amended sinqZero piqZero 0 75 patientA simInitialA
  have hlen : 0 < simInitialA.ecgData.length := by
    show 0 < getInitialEcgData.length
    rw [getInitialEcgData_length]
    decide
  exact ⟨hlen, rfl, h.1 hlen, h.2.2.2.1, (h.2.2.2.2.2.1 rfl).1⟩
